import Mathlib

/-!
Shallow embedding of `cpp/include/cuspatial/detail/utility/traits.hpp`.

The header defines variadic compile-time type predicates built from the
standard type traits (`std::is_same`, `std::is_convertible`,
`std::is_floating_point`, `std::is_integral`) combined with
`std::conjunction_v`, plus two iterator associated-type projections
(`iterator_value_type`, `iterator_vec_base_type`).

We model the relevant universe of C++ types as a finite inductive `CType`
(the fundamental arithmetic types, plus `void` as a type with no implicit
conversion to arithmetic types), the standard unary/binary traits as
boolean classifiers in namespace `std`, and each variadic predicate as a
fold of the corresponding trait over a `List CType` (a template parameter
pack), exactly mirroring `std::conjunction_v<Trait<...>...>`, which is the
conjunction of the trait applied to each pack element and is vacuously
true for the empty pack.
-/

/-- Universe of C++ types used by the traits under verification: the
integral fundamental types, the floating-point fundamental types, and
`void` (a non-arithmetic type with no implicit conversion to arithmetic
types). -/
inductive CType where
  | bool_t
  | char_t
  | short_t
  | int_t
  | uint_t
  | long_t
  | ulong_t
  | float_t
  | double_t
  | longdouble_t
  | void_t
deriving DecidableEq, Repr, Fintype

namespace std

/-- Model of `std::is_same<T, U>::value`: exact type identity, no implicit
conversion considered. -/
def is_same (t u : CType) : Bool := t == u

/-- Model of `std::is_floating_point<T>::value`: true exactly for the
floating-point fundamental types `float`, `double`, `long double`. -/
def is_floating_point : CType → Bool
  | .float_t => true
  | .double_t => true
  | .longdouble_t => true
  | _ => false

/-- Model of `std::is_integral<T>::value`: true exactly for the integral
fundamental types (including `bool` and `char`). -/
def is_integral : CType → Bool
  | .bool_t => true
  | .char_t => true
  | .short_t => true
  | .int_t => true
  | .uint_t => true
  | .long_t => true
  | .ulong_t => true
  | _ => false

/-- Model of `std::is_arithmetic<T>::value` over this universe: integral
or floating-point. -/
def is_arithmetic (t : CType) : Bool := is_integral t || is_floating_point t

/-- Model of `std::is_convertible<From, To>::value` over this universe:
the identity conversion always exists, and any arithmetic type converts
implicitly to any arithmetic type (numeric promotions and conversions,
including narrowing ones, are implicit in C++); `void` converts to
nothing but `void` and nothing converts to `void` but `void` itself. -/
def is_convertible (f t : CType) : Bool := f == t || (is_arithmetic f && is_arithmetic t)

end std

namespace cuspatial
namespace detail

/-- Embedding of `cuspatial::detail::is_same<T, Ts...>()`:
`std::conjunction_v<std::is_same<T, Ts>...>`, the parameter pack `Ts...`
modelled as a list. -/
def is_same (T : CType) (Ts : List CType) : Bool :=
  Ts.all (fun t => std.is_same T t)

/-- Embedding of `cuspatial::detail::is_convertible_to<U, Ts...>()`:
`std::conjunction_v<std::is_convertible<Ts, U>...>`. -/
def is_convertible_to (U : CType) (Ts : List CType) : Bool :=
  Ts.all (fun t => std.is_convertible t U)

/-- Embedding of `cuspatial::detail::is_floating_point<Ts...>()`:
`std::conjunction_v<std::is_floating_point<Ts>...>`. -/
def is_floating_point (Ts : List CType) : Bool :=
  Ts.all (fun t => std.is_floating_point t)

/-- Embedding of `cuspatial::detail::is_integral<Ts...>()`:
`std::conjunction_v<std::is_integral<Ts>...>`. -/
def is_integral (Ts : List CType) : Bool :=
  Ts.all (fun t => std.is_integral t)

/-- Embedding of `cuspatial::detail::is_same_floating_point<T, Ts...>()`:
`std::conjunction_v<std::is_same<T, Ts>...> and
std::conjunction_v<std::is_floating_point<Ts>...>`. -/
def is_same_floating_point (T : CType) (Ts : List CType) : Bool :=
  Ts.all (fun t => std.is_same T t) && Ts.all (fun t => std.is_floating_point t)

/-- Element types an iterator may point at: either a scalar type (which
declares no nested `value_type`) or `cuspatial::vec_2d<B>` (which declares
`value_type = B`). -/
inductive ElemType where
  | scalar (t : CType)
  | vec2d (base : CType)
deriving DecidableEq, Repr

/-- Nested `value_type` member of an element type, under the recognized
associated-type convention: `vec_2d<B>::value_type` is `B`; a scalar type
declares none (a use would fail to compile, modelled as `none`). -/
def ElemType.value_type : ElemType → Option CType
  | .vec2d b => some b
  | .scalar _ => none

/-- An iterator type, abstracted to what `std::iterator_traits` exposes of
it: its declared element type `value_type`. -/
structure Iterator where
  value_type : ElemType
deriving DecidableEq, Repr

/-- Embedding of `cuspatial::detail::iterator_value_type<Iterator>`:
`typename std::iterator_traits<Iterator>::value_type`. -/
def iterator_value_type (it : Iterator) : ElemType := it.value_type

/-- Embedding of `cuspatial::detail::iterator_vec_base_type<Iterator>`:
`typename iterator_value_type<Iterator>::value_type`, partial in the same
way the nested-member lookup is. -/
def iterator_vec_base_type (it : Iterator) : Option CType :=
  (iterator_value_type it).value_type

end detail
end cuspatial

open cuspatial.detail

/-- All-fold over a list is invariant under permutation of the list. -/
theorem list_all_perm {α : Type} (p : α → Bool) {l₁ l₂ : List α} (h : l₁.Perm l₂) :
    l₁.all p = l₂.all p := by
  induction h with
  | nil => rfl
  | cons x _ ih => simp [List.all_cons, ih]
  | swap x y l =>
      simp only [List.all_cons, ← Bool.and_assoc]
      rw [Bool.and_comm (p y) (p x)]
  | trans _ _ ih₁ ih₂ => rw [ih₁, ih₂]

/-- An integral type is never a floating-point type in the standard
scalar classification. -/
theorem std_integral_not_floating (t : CType) (h : std.is_integral t = true) :
    std.is_floating_point t = false := by
  cases t <;> simp_all [std.is_integral, std.is_floating_point]

/-- C1: `is_same_floating_point<T, Ts...>` is true iff both
`is_same<T, Ts...>` and `is_floating_point<Ts...>` are true; in
particular it is false on the two distinct-width floating-point types
`float` and `double` with either as reference, and false on a uniform
list of an integral type. -/
theorem is_same_floating_point_iff_conj :
    (∀ (T : CType) (Ts : List CType),
        is_same_floating_point T Ts = (is_same T Ts && is_floating_point Ts)) ∧
    is_same_floating_point .float_t [.float_t, .double_t] = false ∧
    is_same_floating_point .double_t [.float_t, .double_t] = false ∧
    (∀ (i : CType) (n : ℕ), std.is_integral i = true → 1 ≤ n →
        is_same_floating_point i (List.replicate n i) = false) := by
  refine ⟨fun T Ts => rfl, by decide, by decide, ?_⟩
  intro i n hi hn
  obtain ⟨m, rfl⟩ := Nat.exists_eq_add_of_le hn
  simp [is_same_floating_point, List.replicate, std_integral_not_floating i hi]

/-- Witness for C1 at concrete inputs: `int` is integral and
`is_same_floating_point<int, int, int>` is false. -/
theorem is_same_floating_point_iff_conj_witness :
    is_same_floating_point .int_t (List.replicate 2 .int_t) = false :=
  is_same_floating_point_iff_conj.2.2.2 .int_t 2 (by decide) (by decide)

/-- C10: on the empty candidate list, `is_same_floating_point<T>` is true
for every reference type `T`, floating-point or not: both conjunctions are
vacuously true and `T` is never inspected. -/
theorem is_same_floating_point_empty_true :
    ∀ T : CType, is_same_floating_point T [] = true := by
  intro T; rfl

/-- C2 counterexample: on the empty candidate list,
`is_same_floating_point<int>` is true although `int` is not a
floating-point type, so truth of the predicate does not imply that the
reference type is floating-point when the list is empty. -/
theorem is_same_floating_point_empty_int_true :
    is_same_floating_point .int_t [] = true ∧ std.is_floating_point .int_t = false := by
  decide

/-- C2 (amended): for every non-empty candidate list, if
`is_same_floating_point<T, Ts...>` is true then the reference type `T` is
itself floating-point (it equals the first candidate, which the
floating-point conjunction covers). -/
theorem is_same_floating_point_ref_floating :
    ∀ (T t : CType) (ts : List CType),
      is_same_floating_point T (t :: ts) = true → std.is_floating_point T = true := by
  intro T t ts h
  simp only [is_same_floating_point, List.all_cons, Bool.and_eq_true, std.is_same,
    beq_iff_eq] at h
  exact h.1.1 ▸ h.2.1

/-- Witness for C2 (amended) at a concrete input:
`is_same_floating_point<double, double>` is true and `double` is
floating-point. -/
theorem is_same_floating_point_ref_floating_witness :
    std.is_floating_point CType.double_t = true :=
  is_same_floating_point_ref_floating .double_t .double_t [] (by decide)

/-- C3: the element-type projection yields exactly the iterator's declared
element type; the two-level projection on an iterator over `vec_2d<B>`
yields exactly `B`; and the two-level projection equals the inner-type
extraction applied to the result of the element-type projection. -/
theorem iterator_type_projections :
    (∀ E : ElemType, iterator_value_type ⟨E⟩ = E) ∧
    (∀ b : CType, iterator_vec_base_type ⟨.vec2d b⟩ = some b) ∧
    (∀ it : Iterator, iterator_vec_base_type it = ElemType.value_type (iterator_value_type it)) :=
  ⟨fun _ => rfl, fun _ => rfl, fun _ => rfl⟩

/-- C4: `is_same<T, Ts...>` is true iff every candidate is exactly `T`;
it is true on `T` repeated `n` times against reference `T`, false against
any other reference when `n ≥ 1`, and true on the empty list for any
reference. -/
theorem is_same_spec :
    (∀ (T : CType) (Ts : List CType), is_same T Ts = true ↔ ∀ t ∈ Ts, t = T) ∧
    (∀ (T : CType) (n : ℕ), is_same T (List.replicate n T) = true) ∧
    (∀ (T U : CType) (n : ℕ), 1 ≤ n → U ≠ T → is_same U (List.replicate n T) = false) ∧
    (∀ T : CType, is_same T [] = true) := by
  refine ⟨?_, ?_, ?_, fun T => rfl⟩
  · intro T Ts
    simp only [is_same, std.is_same, List.all_eq_true, beq_iff_eq]
    constructor
    · intro h t ht
      exact (h t ht).symm
    · intro h t ht
      exact (h t ht).symm
  · intro T n
    simp [is_same, std.is_same, List.all_eq_true, List.mem_replicate]
  · intro T U n hn hUT
    obtain ⟨m, rfl⟩ := Nat.exists_eq_add_of_le hn
    simp [is_same, std.is_same, List.replicate, hUT]

/-- Witness for C4 at concrete inputs: `is_same<int, float>` is false. -/
theorem is_same_spec_witness :
    is_same .int_t (List.replicate 1 .float_t) = false :=
  is_same_spec.2.2.1 .float_t .int_t 1 (by decide) (by decide)

/-- C5: `is_convertible_to<U, Ts...>` is true iff every candidate is
implicitly convertible to `U`; the empty list yields true; a mix of
integral and floating-point candidates against floating-point target
`double` yields true; a candidate with no implicit conversion path to
`double` (here `void`) yields false. -/
theorem is_convertible_to_spec :
    (∀ (U : CType) (Ts : List CType),
        is_convertible_to U Ts = true ↔ ∀ t ∈ Ts, std.is_convertible t U = true) ∧
    (∀ U : CType, is_convertible_to U [] = true) ∧
    is_convertible_to .double_t [.int_t, .float_t, .uint_t] = true ∧
    is_convertible_to .double_t [.void_t] = false := by
  refine ⟨?_, fun U => rfl, by decide, by decide⟩
  intro U Ts
  simp [is_convertible_to, List.all_eq_true]

/-- C6: `is_floating_point<Ts...>` is true iff every candidate is a
floating-point type; the empty list yields true; any list containing an
integral type yields false. -/
theorem is_floating_point_spec :
    (∀ Ts : List CType,
        is_floating_point Ts = true ↔ ∀ t ∈ Ts, std.is_floating_point t = true) ∧
    is_floating_point [] = true ∧
    (∀ (Ts : List CType) (t : CType), t ∈ Ts → std.is_integral t = true →
        is_floating_point Ts = false) := by
  refine ⟨?_, rfl, ?_⟩
  · intro Ts
    simp [is_floating_point, List.all_eq_true]
  · intro Ts t ht hi
    refine Bool.eq_false_iff.mpr fun hall => ?_
    have := List.all_eq_true.mp hall t ht
    rw [std_integral_not_floating t hi] at this
    exact Bool.false_ne_true this

/-- Witness for C6 at concrete inputs: a list containing `int` is not all
floating-point. -/
theorem is_floating_point_spec_witness :
    is_floating_point [.double_t, .int_t] = false :=
  is_floating_point_spec.2.2 [.double_t, .int_t] .int_t (by decide) (by decide)

/-- C7: `is_integral<Ts...>` is true iff every candidate is an integral
type; in particular, for any two integral types `i1`, `i2` it is true
over the two-element list. -/
theorem is_integral_spec :
    (∀ Ts : List CType, is_integral Ts = true ↔ ∀ t ∈ Ts, std.is_integral t = true) ∧
    (∀ i1 i2 : CType, std.is_integral i1 = true → std.is_integral i2 = true →
        is_integral [i1, i2] = true) := by
  refine ⟨?_, ?_⟩
  · intro Ts
    simp [is_integral, List.all_eq_true]
  · intro i1 i2 h1 h2
    simp [is_integral, h1, h2]

/-- Witness for C7 at concrete inputs: `is_integral<int, unsigned>` is
true. -/
theorem is_integral_spec_witness :
    is_integral [.int_t, .uint_t] = true :=
  is_integral_spec.2 .int_t .uint_t (by decide) (by decide)

/-- C8: each of the five variadic predicates is invariant under any
permutation of the candidate list: the result depends only on the multiset
of candidates (plus the reference or target type). -/
theorem predicates_perm_invariant :
    ∀ (Ts Tr : List CType), Ts.Perm Tr →
      (∀ T, is_same T Ts = is_same T Tr) ∧
      (∀ U, is_convertible_to U Ts = is_convertible_to U Tr) ∧
      is_floating_point Ts = is_floating_point Tr ∧
      is_integral Ts = is_integral Tr ∧
      (∀ T, is_same_floating_point T Ts = is_same_floating_point T Tr) := by
  intro Ts Tr h
  refine ⟨fun T => list_all_perm _ h, fun U => list_all_perm _ h,
    list_all_perm _ h, list_all_perm _ h, fun T => ?_⟩
  rw [is_same_floating_point, is_same_floating_point, list_all_perm _ h, list_all_perm _ h]

/-- Witness for C8 at concrete inputs: swapping the two elements of a
list leaves `is_floating_point` unchanged. -/
theorem predicates_perm_invariant_witness :
    is_floating_point [.float_t, .int_t] = is_floating_point [.int_t, .float_t] :=
  (predicates_perm_invariant [.float_t, .int_t] [.int_t, .float_t] (by decide)).2.2.1

/-- C9: no single type is classified as both floating-point and integral:
for every type `X`, `is_floating_point<X>` and `is_integral<X>` are never
both true. -/
theorem floating_integral_exclusive :
    ∀ X : CType, (is_floating_point [X] && is_integral [X]) = false := by
  decide
